import Mathlib

/-!
Verification of the network front door of the lldap server: a shallow
embedding of `src/server/src/infra/ldap_server.rs` and
`src/server/src/infra/tcp_server.rs`, with theorems about the
directory-protocol session loop, the byte-file loader, the TLS and bind
orchestration, the HTTP application state, the error-to-status mapper and
the HTTP routing tree.
-/

namespace Lldap

/-! ## Directory-protocol messages and the session loop (ldap_server.rs) -/

/-- An LDAP protocol message as decoded from the wire (`ldap3_server::proto::LdapMsg`):
a numeric correlation identifier `msgid`, an operation payload `op`, and a
list of controls `ctrl`. The operation payload type comes from the external
`ldap3_server` crate, so the model is parameterized over it; controls are
likewise opaque and modelled as numbers. -/
structure LdapMsg (Op : Type) where
  msgid : Nat
  op : Op
  ctrl : List Nat
  deriving DecidableEq

/-- Observable wire events of one LDAP session: reading one framed request
(or hitting a decode failure), writing one response message, and flushing
the write side. -/
inductive Event (Op : Type) where
  | read : LdapMsg Op → Event Op
  | readFailed : Event Op
  | write : LdapMsg Op → Event Op
  | flush : Event Op
  deriving DecidableEq

/-- Model of `handle_incoming_message`. The pluggable handler
(`session.handle_ldap_message`, external to this module) is a state-passing
function `Sess → Op → Sess × Option (List Op)`. Mirrors the source:
a transport decode error is propagated with the context string
"while receiving LDAP op"; a `None` handler result yields `Ok(false)` with
nothing written; otherwise each produced operation is sent as a message
copying the request `msgid` with `ctrl := []`, then the write side is
flushed, and the result is `Ok(true)`. The first component collects the
wire events (writes and flush) the call produces. -/
def handle_incoming_message {Op Sess : Type}
    (handler : Sess → Op → Sess × Option (List Op))
    (msg : Except String (LdapMsg Op)) (session : Sess) :
    List (Event Op) × Except String (Sess × Bool) :=
  match msg with
  | .error e => ([], .error ("while receiving LDAP op: " ++ e))
  | .ok m =>
    match handler session m.op with
    | (session', none) => ([], .ok (session', false))
    | (session', some result) =>
      ((result.map fun result_op =>
          Event.write { msgid := m.msgid, op := result_op, ctrl := [] }) ++ [Event.flush],
       .ok (session', true))

/-- The read-side event of fetching one frame: a successfully decoded message
or a decode failure. -/
def readEvent {Op : Type} (msg : Except String (LdapMsg Op)) : Event Op :=
  match msg with
  | .ok m => Event.read m
  | .error _ => Event.readFailed

/-- Model of the `while let Some(msg) = requests.next().await` loop of
`handle_ldap_stream`: the stream of incoming frames is the list `requests`
(end of list = EOF). Each iteration reads one frame, runs
`handle_incoming_message`, stops with a contextualized error if it failed,
stops normally if it returned `false`, and otherwise continues with the
rest. Returns the full event trace and the final outcome (the returned
unsplit stream is represented by the final session value). -/
def handle_ldap_stream {Op Sess : Type}
    (handler : Sess → Op → Sess × Option (List Op)) (session : Sess) :
    List (Except String (LdapMsg Op)) → List (Event Op) × Except String Sess
  | [] => ([], .ok session)
  | msg :: rest =>
    match handle_incoming_message handler msg session with
    | (evs, .error e) =>
        (readEvent msg :: evs, .error ("while handling incoming messages: " ++ e))
    | (evs, .ok (session', false)) => (readEvent msg :: evs, .ok session')
    | (evs, .ok (session', true)) =>
        (readEvent msg :: evs ++ (handle_ldap_stream handler session' rest).1,
         (handle_ldap_stream handler session' rest).2)

/-- Sequential request/response discipline of a session trace: the trace is
a sequence of per-request blocks, each consisting of the read of one
request followed by all of its response writes and the flush, before the
next read occurs. Terminal shapes: a decode failure block, or a final read
whose handler requested termination (no writes, no flush). -/
inductive SeqBlocks {Op : Type} : List (Event Op) → Prop
  | nil : SeqBlocks []
  | failed : SeqBlocks [Event.readFailed]
  | last (m : LdapMsg Op) : SeqBlocks [Event.read m]
  | block (m : LdapMsg Op) (responses : List (LdapMsg Op)) (rest : List (Event Op)) :
      SeqBlocks rest →
      SeqBlocks (Event.read m :: (responses.map Event.write ++ [Event.flush]) ++ rest)

/-! ## Byte-file loader (`get_file_as_byte_vec`) -/

/-- Environment model of one file as `get_file_as_byte_vec` observes it:
whether `File::open` succeeds, the `metadata` length (if obtainable),
whether the single `Read::read` call itself succeeds, the byte sequence the
file would deliver, and how many bytes that single `read` call fills (a
`read` may legally fill fewer bytes than requested). -/
structure FileModel where
  openable : Bool
  metaLen : Option Nat
  readOk : Bool
  contents : List Nat
  readCount : Nat
  deriving DecidableEq

/-- The three failure cases of `get_file_as_byte_vec`, corresponding to the
context strings "file not found", "unable to read metadata" and
"buffer overflow" attached to `File::open`, `metadata` and `Read::read`. -/
inductive FileError where
  | fileNotFound
  | metadataUnavailable
  | readFailed
  deriving DecidableEq

/-- Model of `get_file_as_byte_vec`. Mirrors the source: open the file,
read the metadata length, allocate `buffer = vec![0; len]`, and issue one
`read` into it. The number of bytes actually filled
(`min readCount (min contents.length len)`: a read fills at most the
buffer size and at most what the file delivers) is returned by `read` but
DISCARDED by the source (the `?` only propagates a read error); the filled
prefix of the zero-initialized buffer is returned as-is. Every failure is
wrapped with the originating file path (first error component). -/
def get_file_as_byte_vec (fs : String → FileModel) (filename : String) :
    Except (String × FileError) (List Nat) :=
  if (fs filename).openable = false then .error (filename, FileError.fileNotFound)
  else
    match (fs filename).metaLen with
    | none => .error (filename, FileError.metadataUnavailable)
    | some len =>
      if (fs filename).readOk = false then .error (filename, FileError.readFailed)
      else
        .ok ((fs filename).contents.take
              (min (fs filename).readCount (min (fs filename).contents.length len)) ++
             List.replicate
              (len - min (fs filename).readCount (min (fs filename).contents.length len)) 0)

/-! ## TLS acceptor and LDAP server construction -/

/-- Configuration of the LDAPS endpoint (`LdapsOptions`). -/
structure LdapsOptions where
  enabled : Bool
  port : Nat
  cert_file : String
  key_file : String
  deriving DecidableEq

/-- The configuration fields `build_ldap_server` reads. -/
structure Configuration where
  ldap_port : Nat
  ldaps_options : LdapsOptions
  ldap_base_dn : String
  ldap_user_dn : String
  deriving DecidableEq

/-- Failure cases of `get_tls_acceptor`: loading either file fails (with the
path and underlying file error), or building the identity/acceptor from the
loaded bytes fails (`Identity::from_pkcs8` / `TlsAcceptor::new`, external
crate). -/
inductive TlsSetupError where
  | certLoad (path : String) (e : FileError)
  | keyLoad (path : String) (e : FileError)
  | identity (e : String)
  deriving DecidableEq

/-- Model of `get_tls_acceptor`: load the certificate file, then the key
file, then build the acceptor from the two byte vectors. The construction
of the identity and acceptor lives in the external `native_tls` crate and
is the parameter `mkAcceptor`. -/
def get_tls_acceptor {Acc : Type} (fs : String → FileModel)
    (mkAcceptor : List Nat → List Nat → Except String Acc)
    (config : Configuration) : Except TlsSetupError Acc :=
  match get_file_as_byte_vec fs config.ldaps_options.cert_file with
  | .error (p, e) => .error (TlsSetupError.certLoad p e)
  | .ok cert_file =>
    match get_file_as_byte_vec fs config.ldaps_options.key_file with
    | .error (p, e) => .error (TlsSetupError.keyLoad p e)
    | .ok key_file =>
      match mkAcceptor cert_file key_file with
      | .error e => .error (TlsSetupError.identity e)
      | .ok acceptor => .ok acceptor

/-- A successful port binding performed by `build_ldap_server`. -/
inductive BindAction where
  | bindLdap (port : Nat)
  | bindLdaps (port : Nat)
  deriving DecidableEq

/-- Failure cases of `build_ldap_server`: the TLS setup failed (wrapped with
the context "while setting up the SSL certificate"), or binding a port
failed (wrapped with "while binding to the port ..."). -/
inductive ServerBuildError where
  | sslSetup (e : TlsSetupError)
  | bindFailed (port : Nat)
  deriving DecidableEq

/-- Model of `build_ldap_server`. Mirrors the source order of effects: the
`tls_context` tuple — and with it `get_tls_acceptor(config)?` — is computed
UNCONDITIONALLY, before any port is bound and before
`config.ldaps_options.enabled` is tested; then the plaintext "ldap" port is
bound; then, only if the LDAPS endpoint is enabled, the "ldaps" port is
bound (`and_then` short-circuits on a previous bind failure). The
environment decides with `bindOk` whether binding a named endpoint on a
port succeeds. Returns the list of performed bindings. -/
def build_ldap_server {Acc : Type} (fs : String → FileModel)
    (mkAcceptor : List Nat → List Nat → Except String Acc)
    (bindOk : String → Nat → Bool) (config : Configuration) :
    Except ServerBuildError (List BindAction) :=
  match get_tls_acceptor fs mkAcceptor config with
  | .error e => .error (ServerBuildError.sslSetup e)
  | .ok _tls_acceptor =>
    if bindOk "ldap" config.ldap_port then
      if config.ldaps_options.enabled then
        if bindOk "ldaps" config.ldaps_options.port then
          .ok [BindAction.bindLdap config.ldap_port,
               BindAction.bindLdaps config.ldaps_options.port]
        else .error (ServerBuildError.bindFailed config.ldaps_options.port)
      else .ok [BindAction.bindLdap config.ldap_port]
    else .error (ServerBuildError.bindFailed config.ldap_port)

/-! ## Domain errors and the HTTP response mapper (tcp_server.rs) -/

/-- The backend error taxonomy (`DomainError`). The enum declaration lives
in `domain/error.rs`, outside the provided sources, but the `match` in
`error_to_http_response` names exactly these seven variants with no
wildcard arm; Rust match exhaustiveness therefore pins the variant set to
exactly these seven. Variant payloads are irrelevant to the mapping and
are modelled as one string each. -/
inductive DomainError where
  | AuthenticationError (msg : String)
  | AuthenticationProtocolError (msg : String)
  | DatabaseError (msg : String)
  | InternalError (msg : String)
  | UnknownCryptoError (msg : String)
  | Base64DecodeError (msg : String)
  | BinarySerializationError (msg : String)
  deriving DecidableEq

/-- An HTTP response as far as the mapper is concerned: status code and
body text. -/
structure HttpResponse where
  status : Nat
  body : String
  deriving DecidableEq

/-- Model of `error_to_http_response`. The status comes from the exhaustive
`match` (Unauthorized = 401, InternalServerError = 500, BadRequest = 400);
the body is `error.to_string()`. The `Display` rendering of `DomainError`
lives outside the provided sources, so the model quantifies over it as the
parameter `describe`. -/
def error_to_http_response (describe : DomainError → String)
    (error : DomainError) : HttpResponse :=
  { status :=
      match error with
      | .AuthenticationError _ | .AuthenticationProtocolError _ => 401
      | .DatabaseError _ | .InternalError _ | .UnknownCryptoError _ => 500
      | .Base64DecodeError _ | .BinarySerializationError _ => 400,
    body := describe error }

/-! ## HTTP routing tree (`http_config`) -/

/-- What a mounted HTTP subtree dispatches to. -/
inductive RouteTarget where
  | authService
  | apiService
  | staticFiles (dir : String)
  | indexFile
  deriving DecidableEq

/-- One route registered inside a scope: a path pattern, an HTTP method and
a target. -/
structure Route where
  pattern : String
  method : String
  target : RouteTarget
  deriving DecidableEq

/-- One mounted service of the routing tree: a scoped subtree delegating to
a configured service, a static-files mount, or a scope carrying explicit
routes. -/
inductive HttpService where
  | scopeService (path : String) (target : RouteTarget)
  | filesService (mount : String) (dir : String)
  | scopeRoutes (path : String) (routes : List Route)
  deriving DecidableEq

/-- The file the `index` handler serves: the source builds the path
`"app"` / `"index.html"` and opens it as a named file. -/
def index_file : String := "app" ++ "/" ++ "index.html"

/-- Model of the routing tree mounted by `http_config`, in registration
order: the `/auth` subtree, the `/api` subtree (wrapped by the
cookie-to-header middleware, not modelled further), the three static-file
mounts, and finally the scope at `/` carrying the explicit empty-path GET
rule and the `.*` catch-all GET rule, both serving the entry document. -/
def http_config_services : List HttpService :=
  [ HttpService.scopeService "/auth" RouteTarget.authService,
    HttpService.scopeService "/api" RouteTarget.apiService,
    HttpService.filesService "/pkg" "./app/pkg",
    HttpService.filesService "/static" "./app/static",
    HttpService.filesService "/static/fonts" "./app/static/fonts",
    HttpService.scopeRoutes "/"
      [ { pattern := "", method := "GET", target := RouteTarget.indexFile },
        { pattern := ".*", method := "GET", target := RouteTarget.indexFile } ] ]

/-- Modelled from the spec: `actix-web` pattern matching is an external
crate. Per the spec sentence on the fallback scope, the wildcard pattern
matches any nonempty remaining path but "a wildcard pattern alone does not
match the empty path", and the explicit empty rule matches exactly the
empty (root) remainder. -/
def routePatternMatches (pat path : String) : Bool :=
  if pat == ".*" then path != "" else path == pat

/-- First route of a scope whose pattern matches the remaining path. -/
def routesResolve (routes : List Route) (remainder : String) : Option RouteTarget :=
  match routes with
  | [] => none
  | r :: rest =>
    if routePatternMatches r.pattern remainder then some r.target
    else routesResolve rest remainder

/-- A request path lies under a mount point when the mount string is a
prefix of the path. -/
def pathUnder (mount path : String) : Bool := path.take mount.length == mount

/-- Modelled from the spec: which request paths a mounted subtree claims.
Scoped services and file mounts claim the paths under their mount point;
the scope at `/` claims a path when one of its routes matches the path
with the leading slash stripped. -/
def serviceResolve : HttpService → String → Option RouteTarget
  | HttpService.scopeService p t, path =>
      if pathUnder p path then some t else none
  | HttpService.filesService m d, path =>
      if pathUnder m path then some (RouteTarget.staticFiles d) else none
  | HttpService.scopeRoutes p routes, path =>
      if pathUnder p path then routesResolve routes (path.drop p.length) else none

/-- Dispatch of one GET request path against a service list: the first
mounted service that claims the path wins (registration order). -/
def resolveRequest (services : List HttpService) (path : String) : Option RouteTarget :=
  match services with
  | [] => none
  | s :: rest =>
    match serviceResolve s path with
    | some t => some t
    | none => resolveRequest rest path

/-! ## HTTP application state (`AppState`, `http_config`, `build_tcp_server`) -/

/-- The values captured by the HTTP bind closure in `build_tcp_server`:
clones of the backend handle, the configured JWT secret, the JWT blacklist
snapshot fetched from the backend before binding, the public server URL and
the mail options. Opaque values are modelled as strings; the blacklist
(`HashSet<u64>`) as a list of token identifiers. -/
structure CapturedContext where
  backend_handler : String
  jwt_secret : String
  jwt_blacklist : List Nat
  server_url : String
  mail_options : String
  deriving DecidableEq

/-- A heap of `RwLock<HashSet<u64>>` cells. `RwLock::new` allocates a fresh
cell; reads and revocation writes go through a cell identifier. Cell
identity is what distinguishes one lock-guarded set instance from
another: two states share the revocation set exactly when they hold the
same cell. -/
structure LockHeap where
  nextCell : Nat
  cellContents : Nat → List Nat

/-- The heap before any lock has been allocated. -/
def emptyLockHeap : LockHeap := { nextCell := 0, cellContents := fun _ => [] }

/-- `RwLock::new(init)`: allocate a fresh cell holding `init`. -/
def rwlockNew (init : List Nat) (h : LockHeap) : Nat × LockHeap :=
  (h.nextCell,
   { nextCell := h.nextCell + 1,
     cellContents := fun i => if i = h.nextCell then init else h.cellContents i })

/-- A logout/revocation: take the write lock on `cell` and insert `token`
into the guarded set. -/
def rwlockInsert (cell : Nat) (token : Nat) (h : LockHeap) : LockHeap :=
  { h with
    cellContents := fun i =>
      if i = cell then token :: h.cellContents i else h.cellContents i }

/-- A token-validity check: take the read lock on `cell` and read the
guarded set. -/
def rwlockRead (cell : Nat) (h : LockHeap) : List Nat := h.cellContents cell

/-- The process-wide HTTP application state installed by `http_config` as
app data: backend handle, the HMAC signing key derived from the secret,
the lock-guarded revoked-token set (held by cell identifier), the public
server URL and the mail options. -/
structure AppState where
  backend_handler : String
  jwt_key : String
  jwt_blacklist : Nat
  server_url : String
  mail_options : String
  deriving DecidableEq

/-- Model of the state installation performed by `http_config`: every call
evaluates `RwLock::new(jwt_blacklist)` on the captured blacklist snapshot —
allocating a fresh lock-guarded set — and registers a fresh `AppState`
holding it. The HMAC key derivation (`Hmac::new_varkey`, external crate)
is the parameter `hmacKey`. -/
def http_config_state (hmacKey : String → String) (ctx : CapturedContext)
    (h : LockHeap) : AppState × LockHeap :=
  match rwlockNew ctx.jwt_blacklist h with
  | (cell, h') =>
    ({ backend_handler := ctx.backend_handler,
       jwt_key := hmacKey ctx.jwt_secret,
       jwt_blacklist := cell,
       server_url := ctx.server_url,
       mail_options := ctx.mail_options }, h')

/-- Model of the bind closure passed by `build_tcp_server` to
`bind("http", ...)`: each invocation (the server runs it once per worker)
clones the captured values and builds a fresh `App`, whose configuration
runs `http_config` and therefore allocates a fresh `AppState`. -/
def build_tcp_server_factory (hmacKey : String → String)
    (ctx : CapturedContext) (h : LockHeap) : AppState × LockHeap :=
  http_config_state hmacKey ctx h

/-- Fixture for the shared-state analysis: the context captured at bind
time, with an empty blacklist snapshot. -/
def c4Context : CapturedContext :=
  { backend_handler := "backend", jwt_secret := "secret", jwt_blacklist := [],
    server_url := "http://localhost", mail_options := "mail" }

/-- Fixture: the application state built by the first worker invocation of
the bind closure. -/
def c4Worker1 : AppState × LockHeap :=
  build_tcp_server_factory (fun s => s) c4Context emptyLockHeap

/-- Fixture: the application state built by the second worker invocation of
the bind closure. -/
def c4Worker2 : AppState × LockHeap :=
  build_tcp_server_factory (fun s => s) c4Context c4Worker1.2

/-- Fixture: the heap after a logout handled by the first worker revokes
token 42 through that worker's state. -/
def c4AfterLogout : LockHeap :=
  rwlockInsert c4Worker1.1.jwt_blacklist 42 c4Worker2.2

/-! ## Helper lemmas about the session loop -/

theorem handle_incoming_message_decode_error {Op Sess : Type}
    (handler : Sess → Op → Sess × Option (List Op)) (e : String) (session : Sess) :
    handle_incoming_message handler (Except.error e) session
      = ([], Except.error ("while receiving LDAP op: " ++ e)) := rfl

theorem handle_incoming_message_handler_none {Op Sess : Type}
    (handler : Sess → Op → Sess × Option (List Op)) (m : LdapMsg Op)
    (session session' : Sess) (hh : handler session m.op = (session', none)) :
    handle_incoming_message handler (Except.ok m) session
      = ([], Except.ok (session', false)) := by
  simp [handle_incoming_message, hh]

theorem handle_incoming_message_handler_some {Op Sess : Type}
    (handler : Sess → Op → Sess × Option (List Op)) (m : LdapMsg Op)
    (session session' : Sess) (result : List Op)
    (hh : handler session m.op = (session', some result)) :
    handle_incoming_message handler (Except.ok m) session
      = ((result.map fun result_op =>
            Event.write { msgid := m.msgid, op := result_op, ctrl := [] }) ++ [Event.flush],
         Except.ok (session', true)) := by
  simp [handle_incoming_message, hh]

/-! ## Claims -/

/-- C1: for every request message processed by the session loop, every
response message written for that request carries the request correlation
identifier (`msgid`) and an empty control list. -/
theorem c1_responses_copy_msgid_and_empty_ctrl {Op Sess : Type}
    (handler : Sess → Op → Sess × Option (List Op)) (m : LdapMsg Op) (session : Sess) :
    ∀ ev ∈ (handle_incoming_message handler (Except.ok m) session).1,
      ∀ w : LdapMsg Op, ev = Event.write w → w.msgid = m.msgid ∧ w.ctrl = [] := by
  intro ev hev w hw
  rcases hh : handler session m.op with ⟨session', res⟩
  cases res with
  | none =>
    rw [handle_incoming_message_handler_none handler m session session' hh] at hev
    simp at hev
  | some result =>
    rw [handle_incoming_message_handler_some handler m session session' result hh] at hev
    subst hw
    rcases List.mem_append.mp hev with h1 | h2
    · rcases List.mem_map.mp h1 with ⟨result_op, _hop, hEq⟩
      injection hEq with hEq'
      subst hEq'
      exact ⟨rfl, rfl⟩
    · simp at h2

/-- Witness for C1: with a handler answering operation 5 of request 7 by
one operation 6, the written response has msgid 7 and empty controls. -/
theorem c1_witness :
    (⟨7, 6, []⟩ : LdapMsg Nat).msgid = (⟨7, 5, []⟩ : LdapMsg Nat).msgid ∧
    (⟨7, 6, []⟩ : LdapMsg Nat).ctrl = [] :=
  c1_responses_copy_msgid_and_empty_ctrl
    (fun (s : Unit) (o : Nat) => (s, some [o + 1])) ⟨7, 5, []⟩ ()
    (Event.write ⟨7, 6, []⟩) (by decide) ⟨7, 6, []⟩ rfl

/-- C6: if the handler returns no result (`None`) for a decoded message,
the session loop terminates without writing any response message (and
without flushing) and without error: the trace stops at the read of that
message, the remaining requests are never read, and the outcome is `ok`. -/
theorem c6_handler_none_ends_loop_without_response {Op Sess : Type}
    (handler : Sess → Op → Sess × Option (List Op)) (session session' : Sess)
    (m : LdapMsg Op) (rest : List (Except String (LdapMsg Op)))
    (hh : handler session m.op = (session', none)) :
    handle_ldap_stream handler session (Except.ok m :: rest)
      = ([Event.read m], Except.ok session') := by
  simp [handle_ldap_stream, readEvent,
        handle_incoming_message_handler_none handler m session session' hh]

/-- Witness for C6: a handler that always declines terminates the loop on
the first request, with one further request pending and unread. -/
theorem c6_witness :
    handle_ldap_stream (fun (s : Nat) (_o : Nat) => (s + 1, none)) 0
        [Except.ok ⟨1, 2, []⟩, Except.ok ⟨3, 4, []⟩]
      = ([Event.read ⟨1, 2, []⟩], Except.ok 1) :=
  c6_handler_none_ends_loop_without_response
    (fun (s : Nat) (_o : Nat) => (s + 1, none)) 0 1 ⟨1, 2, []⟩
    [Except.ok ⟨3, 4, []⟩] rfl

/-- C7: if the handler returns an empty response list for a message, no
response message is written for it (only the flush happens), no error is
raised, and the loop continues with the subsequent requests. -/
theorem c7_empty_response_list_writes_nothing_and_continues {Op Sess : Type}
    (handler : Sess → Op → Sess × Option (List Op)) (session session' : Sess)
    (m : LdapMsg Op) (rest : List (Except String (LdapMsg Op)))
    (hh : handler session m.op = (session', some [])) :
    handle_ldap_stream handler session (Except.ok m :: rest)
      = (Event.read m :: Event.flush :: (handle_ldap_stream handler session' rest).1,
         (handle_ldap_stream handler session' rest).2) := by
  simp [handle_ldap_stream, readEvent,
        handle_incoming_message_handler_some handler m session session' [] hh]

/-- Witness for C7: a handler answering with the empty response list on
request 1 writes nothing for it and goes on to read and answer request 3. -/
theorem c7_witness :
    handle_ldap_stream (fun (s : Nat) (_o : Nat) => (s + 1, some [])) 0
        [Except.ok ⟨1, 2, []⟩, Except.ok ⟨3, 4, []⟩]
      = (Event.read (⟨1, 2, []⟩ : LdapMsg Nat) :: Event.flush ::
          (handle_ldap_stream (fun (s : Nat) (_o : Nat) => (s + 1, some [])) 1
            [Except.ok ⟨3, 4, []⟩]).1,
         (handle_ldap_stream (fun (s : Nat) (_o : Nat) => (s + 1, some [])) 1
            [Except.ok ⟨3, 4, []⟩]).2) :=
  c7_empty_response_list_writes_nothing_and_continues
    (fun (s : Nat) (_o : Nat) => (s + 1, some [])) 0 1 ⟨1, 2, []⟩
    [Except.ok ⟨3, 4, []⟩] rfl

/-- C8: within one connection, the session trace is strictly sequential:
every trace the loop can produce decomposes into per-request blocks in
which all response writes for a request and its flush occur before the
next request is read (no pipelining). -/
theorem c8_no_pipelining_within_connection {Op Sess : Type}
    (handler : Sess → Op → Sess × Option (List Op)) (session : Sess)
    (requests : List (Except String (LdapMsg Op))) :
    SeqBlocks (handle_ldap_stream handler session requests).1 := by
  induction requests generalizing session with
  | nil => exact SeqBlocks.nil
  | cons msg rest ih =>
    cases msg with
    | error e =>
      simp [handle_ldap_stream, readEvent, handle_incoming_message_decode_error]
      exact SeqBlocks.failed
    | ok m =>
      rcases hh : handler session m.op with ⟨session', res⟩
      cases res with
      | none =>
        simp [handle_ldap_stream, readEvent,
              handle_incoming_message_handler_none handler m session session' hh]
        exact SeqBlocks.last m
      | some result =>
        simp [handle_ldap_stream, readEvent,
              handle_incoming_message_handler_some handler m session session' result hh]
        have hb := SeqBlocks.block m
          (result.map fun result_op => (⟨m.msgid, result_op, []⟩ : LdapMsg Op))
          (handle_ldap_stream handler session' rest).1 (ih session')
        simpa [List.map_map, Function.comp] using hb

/-- C10: whenever the loader succeeds, the returned buffer has exactly the
metadata-reported length, and every byte past the prefix actually filled by
the read call is still the zero the buffer was initialized with. -/
theorem c10_success_returns_metadata_length_zero_padded
    (fs : String → FileModel) (filename : String) (buf : List Nat)
    (h : get_file_as_byte_vec fs filename = Except.ok buf) :
    (fs filename).metaLen = some buf.length ∧
    List.drop (min (fs filename).readCount (min (fs filename).contents.length buf.length)) buf
      = List.replicate
          (buf.length -
            min (fs filename).readCount (min (fs filename).contents.length buf.length)) 0 := by
  unfold get_file_as_byte_vec at h
  split at h
  · exact absurd h (by simp)
  · split at h
    · exact absurd h (by simp)
    · rename_i len hm
      split at h
      · exact absurd h (by simp)
      · injection h with hb
        subst hb
        have h1 : min (fs filename).readCount (min (fs filename).contents.length len)
            ≤ (fs filename).contents.length :=
          le_trans (min_le_right _ _) (min_le_left _ _)
        have hlen : ((fs filename).contents.take
              (min (fs filename).readCount (min (fs filename).contents.length len)) ++
            List.replicate
              (len - min (fs filename).readCount (min (fs filename).contents.length len))
              0).length = len := by
          simp [List.length_take, Nat.min_eq_left h1]
        rw [hlen, hm]
        refine ⟨rfl, ?_⟩
        exact List.drop_left' (by simp [List.length_take, Nat.min_eq_left h1])

/-- Witness for C10: metadata length 3, file delivering bytes `[5, 6]` with
a read call filling only 2 bytes; the loader returns `[5, 6, 0]`, whose
length is the metadata length and whose tail is the zero fill. -/
theorem c10_witness :
    ((fun _ : String =>
        ({ openable := true, metaLen := some 3, readOk := true,
           contents := [5, 6], readCount := 2 } : FileModel)) "k").metaLen
      = some ([5, 6, 0] : List Nat).length ∧
    List.drop
        (min ((fun _ : String =>
            ({ openable := true, metaLen := some 3, readOk := true,
               contents := [5, 6], readCount := 2 } : FileModel)) "k").readCount
          (min ((fun _ : String =>
              ({ openable := true, metaLen := some 3, readOk := true,
                 contents := [5, 6], readCount := 2 } : FileModel)) "k").contents.length
            ([5, 6, 0] : List Nat).length))
        [5, 6, 0]
      = List.replicate
          (([5, 6, 0] : List Nat).length -
            min ((fun _ : String =>
                ({ openable := true, metaLen := some 3, readOk := true,
                   contents := [5, 6], readCount := 2 } : FileModel)) "k").readCount
              (min ((fun _ : String =>
                  ({ openable := true, metaLen := some 3, readOk := true,
                     contents := [5, 6], readCount := 2 } : FileModel)) "k").contents.length
                ([5, 6, 0] : List Nat).length)) 0 :=
  c10_success_returns_metadata_length_zero_padded
    (fun _ : String =>
      ({ openable := true, metaLen := some 3, readOk := true,
         contents := [5, 6], readCount := 2 } : FileModel))
    "k" [5, 6, 0] rfl

/-- C2 (code bug): a file that opens fine, reports metadata length 4, and
whose single read call fills only 2 bytes does NOT make the loader fail
with a truncation error: the byte count returned by `read` is discarded by
the source, so the loader returns `Ok` with the zero-padded buffer. The
claimed `ReadTruncated` failure path does not exist in the code. -/
theorem c2_short_read_returns_ok_not_truncation_error :
    get_file_as_byte_vec
      (fun _ => { openable := true, metaLen := some 4, readOk := true,
                  contents := [1, 2], readCount := 2 }) "cert.pem"
      = Except.ok [1, 2, 0, 0] := rfl

/-- C3 (code bug): with the LDAPS endpoint disabled in the configuration
and an unopenable certificate file, `build_ldap_server` nevertheless fails
with the SSL-setup error: the source computes the `tls_context` tuple —
and with it `get_tls_acceptor(config)?` — before ever testing
`ldaps_options.enabled`, so certificate loading is attempted and aborts the
build even though TLS is disabled and every port binding would succeed. -/
theorem c3_tls_disabled_still_loads_certificate :
    build_ldap_server
      (fun _ => { openable := false, metaLen := none, readOk := false,
                  contents := [], readCount := 0 })
      (fun _ _ => Except.ok ())
      (fun _ _ => true)
      { ldap_port := 389,
        ldaps_options :=
          { enabled := false, port := 636,
            cert_file := "cert.pem", key_file := "key.pem" },
        ldap_base_dn := "dc=example,dc=com",
        ldap_user_dn := "admin" }
      = Except.error (ServerBuildError.sslSetup
          (TlsSetupError.certLoad "cert.pem" FileError.fileNotFound)) := rfl

/-- C4 (code bug): two invocations of the HTTP bind closure — one per
server worker — allocate two distinct lock-guarded revocation sets
(`RwLock::new` runs inside `http_config` on a clone of the startup
snapshot). Revoking token 42 through the first worker state is invisible
to token-validity checks going through the second worker state, refuting
the claimed single process-wide shared instance. -/
theorem c4_revocation_not_visible_across_workers :
    c4Worker1.1.jwt_blacklist ≠ c4Worker2.1.jwt_blacklist ∧
    rwlockRead c4Worker1.1.jwt_blacklist c4AfterLogout = [42] ∧
    rwlockRead c4Worker2.1.jwt_blacklist c4AfterLogout = [] := by decide

/-- C5: the error mapper is total with no default branch: authentication
and authentication-protocol errors map to 401; database, internal and
cryptographic errors map to 500; base64 and binary-serialization decode
errors map to 400; every error lands on one of the three statuses, and the
body always equals the description text, whatever the rendering. -/
theorem c5_error_mapping_total_and_body_is_description
    (describe : DomainError → String) (error : DomainError) (m : String) :
    (error_to_http_response describe (DomainError.AuthenticationError m)).status = 401 ∧
    (error_to_http_response describe (DomainError.AuthenticationProtocolError m)).status = 401 ∧
    (error_to_http_response describe (DomainError.DatabaseError m)).status = 500 ∧
    (error_to_http_response describe (DomainError.InternalError m)).status = 500 ∧
    (error_to_http_response describe (DomainError.UnknownCryptoError m)).status = 500 ∧
    (error_to_http_response describe (DomainError.Base64DecodeError m)).status = 400 ∧
    (error_to_http_response describe (DomainError.BinarySerializationError m)).status = 400 ∧
    (error_to_http_response describe error).body = describe error ∧
    ((error_to_http_response describe error).status = 400 ∨
     (error_to_http_response describe error).status = 401 ∨
     (error_to_http_response describe error).status = 500) := by
  refine ⟨rfl, rfl, rfl, rfl, rfl, rfl, rfl, rfl, ?_⟩
  cases error <;> simp [error_to_http_response]

/-- C9: the routing tree serves the entry document for the root path and
for every GET path claimed by no earlier mount: the scope at `/` carries
the explicit empty-pattern rule (matching the root) and the `.*` catch-all
(matching any nonempty remainder), both dispatching to the index file. -/
theorem c9_root_and_unmatched_paths_serve_index (path : String)
    (h1 : pathUnder "/auth" path = false)
    (h2 : pathUnder "/api" path = false)
    (h3 : pathUnder "/pkg" path = false)
    (h4 : pathUnder "/static" path = false)
    (h5 : pathUnder "/static/fonts" path = false)
    (h6 : pathUnder "/" path = true) :
    resolveRequest http_config_services path = some RouteTarget.indexFile ∧
    resolveRequest http_config_services "/" = some RouteTarget.indexFile := by
  have e1 : (("" : String) == ".*") = false := by decide
  have e2 : ((".*" : String) == ".*") = true := by decide
  have hlen : String.length "/" = 1 := rfl
  constructor
  · by_cases hrem : path.drop 1 = ""
    · simp [resolveRequest, http_config_services, serviceResolve, h1, h2, h3, h4, h5, h6,
            routesResolve, routePatternMatches, e1, e2, hlen, hrem]
    · simp [resolveRequest, http_config_services, serviceResolve, h1, h2, h3, h4, h5, h6,
            routesResolve, routePatternMatches, e1, e2, hlen, hrem]
  · decide

/-- Witness for C9: the unmatched client route `/some/client/route` and the
root both resolve to the entry document. -/
theorem c9_witness :
    resolveRequest http_config_services "/some/client/route" = some RouteTarget.indexFile ∧
    resolveRequest http_config_services "/" = some RouteTarget.indexFile :=
  c9_root_and_unmatched_paths_serve_index "/some/client/route"
    (by decide) (by decide) (by decide) (by decide) (by decide) (by decide)

end Lldap
